import Mathlib

/-!
Verification of the hysteresis cache-cleanup controller in
`src/src/main.rs` (RAM Cache Manager).

The embedding models the `CacheManager` struct and its operations.
Numeric fields that are `f32` in the source are modelled as exact
rationals `ℚ` (the guard and threshold logic performs only comparisons
and additions of in-range slider values, where `f32` arithmetic is
exact). `Instant` timestamps are modelled as rational time points; an
`elapsed()` call at time `now` against a stored instant `t` is `now - t`.
External effects (the shell commands used to sample and reclaim memory)
are modelled by explicit input data (`SampleResult`) and by an explicit
record of the command invocations the cleanup routine issues.
-/

namespace MemoryCacheManager

/-- Platform switch mirroring the `cfg(target_os = "windows")` conditional
compilation: every `#[cfg]`-split function in the source has a Windows body
and a non-Windows body. -/
inductive Platform where
  | windows
  | other
deriving DecidableEq, Repr

/-- Outcome of the external sampling commands consumed by `get_ram_cache`
(lines 107-141): either the powershell standby-cache read succeeds with a
byte count, or it fails and the `wmic FreePhysicalMemory` fallback succeeds
with a kilobyte count, or both fail. -/
inductive SampleResult where
  | standbyBytes (bytes : ℚ)
  | freePhysicalKb (kb : ℚ)
  | failure
deriving DecidableEq, Repr

/-- The status strings the source writes into `status_message`, abstracted
to their information content (the exact formatting of the float in the
"Cleaned ... MB" message is presentational). -/
inductive Status where
  | ready
  | cleaningInProgress
  | cleaned (mb : ℚ)
  | couldNotClean
  | onlyWindows
  | configSaved
  | configSaveError (e : String)
deriving DecidableEq, Repr

/-- `Config` (lines 14-19). -/
structure Config where
  start_threshold_mb : ℚ
  stop_threshold_mb : ℚ
  auto_clean_enabled : Bool
deriving DecidableEq, Repr

/-- `impl Default for Config` (lines 21-29). -/
def Config.default : Config :=
  { start_threshold_mb := 2048
    stop_threshold_mb := 1024
    auto_clean_enabled := true }

/-- `CacheManager` (lines 31-38). The `Arc<Mutex<Option<Instant>>>` around
`last_clean_time` is single-owner in practice; it is modelled as the
optional timestamp it protects. -/
structure CacheManager where
  config : Config
  last_clean_time : Option ℚ
  ram_cache_mb : ℚ
  total_ram_mb : ℚ
  is_cleaning : Bool
  status_message : Status
deriving DecidableEq, Repr

/-- `CacheManager::new` (lines 41-52): `load_config().unwrap_or_default()`
is modelled by an optional loaded config (`none` on missing/corrupt file). -/
def CacheManager.new (loaded : Option Config) (total_ram : ℚ) : CacheManager :=
  { config := loaded.getD Config.default
    last_clean_time := none
    ram_cache_mb := 0
    total_ram_mb := total_ram
    is_cleaning := false
    status_message := .ready }

/-- `CacheManager::get_ram_cache` (lines 107-146). On Windows: the standby
read converts bytes to MB; the fallback estimates `total - free` from a
kilobyte reading; if both commands fail the function returns `0.0` (line
140). The non-Windows body (lines 143-146) returns `0.0` unconditionally. -/
def get_ram_cache (p : Platform) (total_ram_mb : ℚ) (r : SampleResult) : ℚ :=
  match p with
  | .windows =>
    match r with
    | .standbyBytes bytes => bytes / (1024 * 1024)
    | .freePhysicalKb kb => total_ram_mb - kb / 1024
    | .failure => 0
  | .other => 0

/-- The external command invocations issued by the Windows body of
`clean_ram_cache` (lines 157-176): three invocations whose argument lists
are constants in the source. The `Option ℚ` component records the numeric
reclaim target contained in the arguments of the invocation; it is `none` for
all three because the argument strings carry no number derived from the
state of the controller. -/
def clean_ram_cache_exec_calls (_s : CacheManager) : List (String × Option ℚ) :=
  [("powershell Clear-Host; GC Collect; WaitForPendingFinalizers", none),
   ("powershell Get-Process EmptyWorkingSet", none),
   ("cmd /C echo off", none)]

/-- `CacheManager::clean_ram_cache` (lines 148-199). Windows body: sets
`is_cleaning = true` and the in-progress status, binds `initial_cache` and
`stop_threshold` (the latter is never used afterwards in the source), runs
the three external commands of `clean_ram_cache_exec_calls`, sleeps,
re-samples the metric, reports the observed difference, stores the
completion instant in `last_clean_time` and resets `is_cleaning`.
`now` is the completion timestamp; `resample` feeds the inner
`get_ram_cache` call at line 182. Non-Windows body (lines 196-199): only
sets the status message. -/
def clean_ram_cache (p : Platform) (now : ℚ) (resample : SampleResult)
    (s : CacheManager) : CacheManager :=
  match p with
  | .windows =>
    let s1 : CacheManager :=
      { s with is_cleaning := true, status_message := .cleaningInProgress }
    let initial_cache := s1.ram_cache_mb
    let ram2 := get_ram_cache .windows s1.total_ram_mb resample
    let cleaned_mb := initial_cache - ram2
    { s1 with
      ram_cache_mb := ram2
      status_message := if 0 < cleaned_mb then .cleaned cleaned_mb else .couldNotClean
      last_clean_time := some now
      is_cleaning := false }
  | .other =>
    { s with status_message := .onlyWindows }

/-- `CacheManager::should_auto_clean` (lines 201-215): false when
auto-clean is disabled; false when a previous clean finished less than 30
seconds ago; otherwise true iff the current metric is at or above the
start threshold. -/
def should_auto_clean (now : ℚ) (s : CacheManager) : Bool :=
  if !s.config.auto_clean_enabled then false
  else if (match s.last_clean_time with
           | some last_time => decide (now - last_time < 30)
           | none => false) then false
  else decide (s.config.start_threshold_mb ≤ s.ram_cache_mb)

/-- `CacheManager::should_continue_cleaning` (lines 217-220). This method
is never called anywhere in the source (dead code). -/
def should_continue_cleaning (s : CacheManager) : Bool :=
  decide (s.config.stop_threshold_mb < s.ram_cache_mb)

/-- The per-tick threshold guard of `update` (lines 300-304 and 326-330),
as a function of the stop threshold before the tick and the two slider
values produced by the edits of the user (an untouched slider yields the
current config value). The start guard compares the edited start against
the pre-tick stop and writes the result into the config (line 304) before
the stop guard reads it (line 327). -/
def guard_step (old_stop start_edit stop_edit : ℚ) : ℚ × ℚ :=
  let start_threshold := if start_edit ≤ old_stop then old_stop + 128 else start_edit
  let stop_threshold :=
    if start_threshold ≤ stop_edit then start_threshold - 128 else stop_edit
  (start_threshold, stop_threshold)

/-- The configuration guard as a transformation of the threshold pair
(start, stop): re-running the tick guard with both sliders untouched. -/
def threshold_guard (pr : ℚ × ℚ) : ℚ × ℚ :=
  guard_step pr.2 pr.1 pr.2

/-- Per-tick input: the tick time, the outcome of each potential external
sampling command, the user interactions with the four widgets, and the
outcome of a save if requested.  An untouched slider yields the current
config value as its edit; the checkbox always yields its displayed
(possibly toggled) value. -/
structure TickInput where
  now : ℚ
  sample : SampleResult
  auto_resample : SampleResult
  start_edit : ℚ
  stop_edit : ℚ
  auto_edit : Bool
  save_clicked : Bool
  save_result : Option String
  manual_clicked : Bool
  manual_resample : SampleResult
deriving Repr

/-- Line 226: `self.ram_cache_mb = self.get_ram_cache();`. -/
def sample_step (p : Platform) (i : TickInput) (s : CacheManager) : CacheManager :=
  { s with ram_cache_mb := get_ram_cache p s.total_ram_mb i.sample }

/-- Lines 229-231: `if self.should_auto_clean() && !self.is_cleaning`
run `clean_ram_cache`. Returns the new state and whether the automatic
cleanup fired. -/
def auto_clean_step (p : Platform) (i : TickInput) (s : CacheManager) :
    CacheManager × Bool :=
  (if should_auto_clean i.now s && !s.is_cleaning
   then clean_ram_cache p i.now i.auto_resample s else s,
   should_auto_clean i.now s && !s.is_cleaning)

/-- Lines 293-330: both slider sections including the threshold guard. -/
def guard_ui_step (i : TickInput) (s : CacheManager) : CacheManager :=
  { s with config :=
      { s.config with
        start_threshold_mb :=
          (guard_step s.config.stop_threshold_mb i.start_edit i.stop_edit).1
        stop_threshold_mb :=
          (guard_step s.config.stop_threshold_mb i.start_edit i.stop_edit).2 } }

/-- Lines 346-351: the auto-clean checkbox writes its displayed value. -/
def checkbox_step (i : TickInput) (s : CacheManager) : CacheManager :=
  { s with config := { s.config with auto_clean_enabled := i.auto_edit } }

/-- Lines 356-367: the save button; only the status message changes in
the in-memory state. -/
def save_step (i : TickInput) (s : CacheManager) : CacheManager :=
  if i.save_clicked then
    { s with status_message :=
        match i.save_result with
        | none => .configSaved
        | some e => .configSaveError e }
  else s

/-- Lines 380-382: the manual clean button invokes `clean_ram_cache`
unconditionally when clicked. -/
def manual_step (p : Platform) (i : TickInput) (s : CacheManager) : CacheManager :=
  if i.manual_clicked then clean_ram_cache p i.now i.manual_resample s else s

/-- `eframe::App::update` (lines 224-416): one tick of the control loop,
in source order: sample, auto-clean decision, threshold sliders with
guard, checkbox, save button, manual clean button. Returns the final
state and whether the automatic cleanup fired on this tick. -/
def update (p : Platform) (i : TickInput) (s : CacheManager) : CacheManager × Bool :=
  (manual_step p i (save_step i (checkbox_step i
      (guard_ui_step i (auto_clean_step p i (sample_step p i s)).1))),
   (auto_clean_step p i (sample_step p i s)).2)

/-- Whether any tick of a run fires the automatic cleanup. -/
def run_auto_fires (p : Platform) : List TickInput → CacheManager → Bool
  | [], _ => false
  | i :: l, s => (update p i s).2 || run_auto_fires p l (update p i s).1

/-- States reachable from process start by any sequence of ticks. -/
inductive Reachable : CacheManager → Prop where
  | start : ∀ (loaded : Option Config) (total : ℚ), Reachable (CacheManager.new loaded total)
  | step : ∀ (p : Platform) (i : TickInput) (s : CacheManager),
      Reachable s → Reachable (update p i s).1

/-- A concrete tick for Scenario A of the spec: the sampler reads 2100 MB
(2202009600 bytes of standby cache), the user touches nothing (sliders
hold the default 2048/1024, checkbox stays on). -/
def tick_sample_2100 : TickInput :=
  { now := 1
    sample := .standbyBytes 2202009600
    auto_resample := .standbyBytes 524288000
    start_edit := 2048
    stop_edit := 1024
    auto_edit := true
    save_clicked := false
    save_result := none
    manual_clicked := false
    manual_resample := .failure }

/-- A tick identical to `tick_sample_2100` but with auto-clean switched
off at the checkbox. -/
def tick_disabled : TickInput := { tick_sample_2100 with auto_edit := false }

/-- A tick whose sampling commands all fail, with no user interaction. -/
def tick_failure : TickInput :=
  { now := 5
    sample := .failure
    auto_resample := .failure
    start_edit := 2048
    stop_edit := 1024
    auto_edit := true
    save_clicked := false
    save_result := none
    manual_clicked := false
    manual_resample := .failure }

/-- A manager state whose last known metric reading was 3000 MB. -/
def state_metric_3000 : CacheManager :=
  { CacheManager.new none 8192 with ram_cache_mb := 3000 }

/-- The default configuration with the auto-clean flag off. -/
def config_disabled : Config :=
  { start_threshold_mb := 2048, stop_threshold_mb := 1024, auto_clean_enabled := false }

/-- A persisted configuration with a start threshold of 0 (loadable from a
hand-edited config file; the sliders never ran on it). -/
def config_low : Config :=
  { start_threshold_mb := 0, stop_threshold_mb := -128, auto_clean_enabled := true }

/-- A tick at time `n` that holds the `config_low` slider values and
touches nothing else; all sampling fails. -/
def tick_low (n : ℚ) : TickInput :=
  { now := n
    sample := .failure
    auto_resample := .failure
    start_edit := 0
    stop_edit := -128
    auto_edit := true
    save_clicked := false
    save_result := none
    manual_clicked := false
    manual_resample := .failure }

/-- A tick at time 3 on which the user clicks the manual clean button;
the post-clean resample reads 500 MB. -/
def tick_manual : TickInput :=
  { now := 3
    sample := .standbyBytes 2202009600
    auto_resample := .failure
    start_edit := 2048
    stop_edit := 1024
    auto_edit := false
    save_clicked := false
    save_result := none
    manual_clicked := true
    manual_resample := .standbyBytes 524288000 }

/-! Basic facts about the individual steps. -/

lemma clean_ram_cache_config (p : Platform) (now : ℚ) (rs : SampleResult)
    (s : CacheManager) : (clean_ram_cache p now rs s).config = s.config := by
  cases p <;> rfl

lemma clean_ram_cache_total (p : Platform) (now : ℚ) (rs : SampleResult)
    (s : CacheManager) : (clean_ram_cache p now rs s).total_ram_mb = s.total_ram_mb := by
  cases p <;> rfl

lemma clean_ram_cache_last_windows (now : ℚ) (rs : SampleResult) (s : CacheManager) :
    (clean_ram_cache .windows now rs s).last_clean_time = some now := rfl

lemma clean_ram_cache_last_other (now : ℚ) (rs : SampleResult) (s : CacheManager) :
    (clean_ram_cache .other now rs s).last_clean_time = s.last_clean_time := rfl

lemma clean_ram_cache_ram_windows (now : ℚ) (rs : SampleResult) (s : CacheManager) :
    (clean_ram_cache .windows now rs s).ram_cache_mb
      = get_ram_cache .windows s.total_ram_mb rs := rfl

lemma clean_ram_cache_is_cleaning (p : Platform) (now : ℚ) (rs : SampleResult)
    (s : CacheManager) (h : s.is_cleaning = false) :
    (clean_ram_cache p now rs s).is_cleaning = false := by
  cases p
  · rfl
  · simpa [clean_ram_cache] using h

lemma sample_step_config (p : Platform) (i : TickInput) (s : CacheManager) :
    (sample_step p i s).config = s.config := rfl

lemma sample_step_is_cleaning (p : Platform) (i : TickInput) (s : CacheManager) :
    (sample_step p i s).is_cleaning = s.is_cleaning := rfl

lemma sample_step_last (p : Platform) (i : TickInput) (s : CacheManager) :
    (sample_step p i s).last_clean_time = s.last_clean_time := rfl

lemma sample_step_total (p : Platform) (i : TickInput) (s : CacheManager) :
    (sample_step p i s).total_ram_mb = s.total_ram_mb := rfl

lemma sample_step_ram (p : Platform) (i : TickInput) (s : CacheManager) :
    (sample_step p i s).ram_cache_mb = get_ram_cache p s.total_ram_mb i.sample := rfl

lemma auto_clean_step_config (p : Platform) (i : TickInput) (s : CacheManager) :
    ((auto_clean_step p i s).1).config = s.config := by
  dsimp only [auto_clean_step]
  split
  · exact clean_ram_cache_config ..
  · rfl

lemma auto_clean_step_total (p : Platform) (i : TickInput) (s : CacheManager) :
    ((auto_clean_step p i s).1).total_ram_mb = s.total_ram_mb := by
  dsimp only [auto_clean_step]
  split
  · exact clean_ram_cache_total ..
  · rfl

lemma auto_clean_step_is_cleaning (p : Platform) (i : TickInput) (s : CacheManager)
    (h : s.is_cleaning = false) : ((auto_clean_step p i s).1).is_cleaning = false := by
  dsimp only [auto_clean_step]
  split
  · exact clean_ram_cache_is_cleaning _ _ _ _ h
  · exact h

lemma checkbox_step_config (i : TickInput) (s : CacheManager) :
    (checkbox_step i s).config = { s.config with auto_clean_enabled := i.auto_edit } := rfl

lemma guard_ui_step_config (i : TickInput) (s : CacheManager) :
    (guard_ui_step i s).config =
      { s.config with
        start_threshold_mb :=
          (guard_step s.config.stop_threshold_mb i.start_edit i.stop_edit).1
        stop_threshold_mb :=
          (guard_step s.config.stop_threshold_mb i.start_edit i.stop_edit).2 } := rfl

lemma save_step_config (i : TickInput) (s : CacheManager) :
    (save_step i s).config = s.config := by
  dsimp only [save_step]
  split <;> rfl

lemma save_step_is_cleaning (i : TickInput) (s : CacheManager) :
    (save_step i s).is_cleaning = s.is_cleaning := by
  dsimp only [save_step]
  split <;> rfl

lemma save_step_last (i : TickInput) (s : CacheManager) :
    (save_step i s).last_clean_time = s.last_clean_time := by
  dsimp only [save_step]
  split <;> rfl

lemma save_step_ram (i : TickInput) (s : CacheManager) :
    (save_step i s).ram_cache_mb = s.ram_cache_mb := by
  dsimp only [save_step]
  split <;> rfl

lemma save_step_total (i : TickInput) (s : CacheManager) :
    (save_step i s).total_ram_mb = s.total_ram_mb := by
  dsimp only [save_step]
  split <;> rfl

lemma manual_step_config (p : Platform) (i : TickInput) (s : CacheManager) :
    (manual_step p i s).config = s.config := by
  dsimp only [manual_step]
  split
  · exact clean_ram_cache_config ..
  · rfl

lemma manual_step_is_cleaning (p : Platform) (i : TickInput) (s : CacheManager)
    (h : s.is_cleaning = false) : (manual_step p i s).is_cleaning = false := by
  dsimp only [manual_step]
  split
  · exact clean_ram_cache_is_cleaning _ _ _ _ h
  · exact h

lemma checkbox_step_last (i : TickInput) (s : CacheManager) :
    (checkbox_step i s).last_clean_time = s.last_clean_time := rfl

lemma checkbox_step_ram (i : TickInput) (s : CacheManager) :
    (checkbox_step i s).ram_cache_mb = s.ram_cache_mb := rfl

lemma checkbox_step_total (i : TickInput) (s : CacheManager) :
    (checkbox_step i s).total_ram_mb = s.total_ram_mb := rfl

lemma guard_ui_step_last (i : TickInput) (s : CacheManager) :
    (guard_ui_step i s).last_clean_time = s.last_clean_time := rfl

lemma guard_ui_step_ram (i : TickInput) (s : CacheManager) :
    (guard_ui_step i s).ram_cache_mb = s.ram_cache_mb := rfl

lemma guard_ui_step_total (i : TickInput) (s : CacheManager) :
    (guard_ui_step i s).total_ram_mb = s.total_ram_mb := rfl

lemma auto_clean_step_fst_of_false (p : Platform) (i : TickInput) (s : CacheManager)
    (h : (should_auto_clean i.now s && !s.is_cleaning) = false) :
    (auto_clean_step p i s).1 = s := by
  simp [auto_clean_step, h]

lemma auto_clean_step_last_other (i : TickInput) (s : CacheManager) :
    ((auto_clean_step .other i s).1).last_clean_time = s.last_clean_time := by
  dsimp only [auto_clean_step]
  split
  · exact clean_ram_cache_last_other ..
  · rfl

lemma manual_step_not_clicked (p : Platform) (i : TickInput) (s : CacheManager)
    (h : i.manual_clicked = false) : manual_step p i s = s := by
  simp [manual_step, h]

lemma manual_step_clicked (p : Platform) (i : TickInput) (s : CacheManager)
    (h : i.manual_clicked = true) :
    manual_step p i s = clean_ram_cache p i.now i.manual_resample s := by
  simp [manual_step, h]

lemma manual_step_last_other (i : TickInput) (s : CacheManager) :
    (manual_step .other i s).last_clean_time = s.last_clean_time := by
  dsimp only [manual_step]
  split
  · exact clean_ram_cache_last_other ..
  · rfl

/-- The second component of a tick: whether the automatic cleanup fired. -/
lemma update_snd (p : Platform) (i : TickInput) (s : CacheManager) :
    (update p i s).2
      = (should_auto_clean i.now (sample_step p i s) && !s.is_cleaning) := rfl

/-- The configuration after a tick: thresholds through the guard from the
slider edits, the enabled flag from the checkbox; nothing later in the
tick touches the config. -/
lemma update_config (p : Platform) (i : TickInput) (s : CacheManager) :
    (update p i s).1.config =
      { start_threshold_mb :=
          (guard_step s.config.stop_threshold_mb i.start_edit i.stop_edit).1
        stop_threshold_mb :=
          (guard_step s.config.stop_threshold_mb i.start_edit i.stop_edit).2
        auto_clean_enabled := i.auto_edit } := by
  show (manual_step p i (save_step i (checkbox_step i
      (guard_ui_step i (auto_clean_step p i (sample_step p i s)).1)))).config = _
  rw [manual_step_config, save_step_config, checkbox_step_config, guard_ui_step_config,
    auto_clean_step_config, sample_step_config]

lemma update_is_cleaning (p : Platform) (i : TickInput) (s : CacheManager)
    (h : s.is_cleaning = false) : (update p i s).1.is_cleaning = false := by
  show (manual_step p i (save_step i (checkbox_step i
      (guard_ui_step i (auto_clean_step p i (sample_step p i s)).1)))).is_cleaning = false
  apply manual_step_is_cleaning
  rw [save_step_is_cleaning]
  show ((auto_clean_step p i (sample_step p i s)).1).is_cleaning = false
  apply auto_clean_step_is_cleaning
  rw [sample_step_is_cleaning]
  exact h

/-- Every reachable state has the cleaning flag down: the flag is only
raised transiently inside the synchronous `clean_ram_cache` body. -/
lemma reachable_not_cleaning (s : CacheManager) (h : Reachable s) :
    s.is_cleaning = false := by
  induction h with
  | start loaded total => rfl
  | step p i s _ ih => exact update_is_cleaning p i s ih

/-- `should_auto_clean` unfolded into the three-part condition of the spec. -/
lemma should_auto_clean_eq_true (now : ℚ) (s : CacheManager) :
    should_auto_clean now s = true ↔
      (s.config.auto_clean_enabled = true ∧
       s.config.start_threshold_mb ≤ s.ram_cache_mb ∧
       (s.last_clean_time = none ∨
        ∃ t, s.last_clean_time = some t ∧ 30 ≤ now - t)) := by
  unfold should_auto_clean
  cases hE : s.config.auto_clean_enabled
  · simp [hE]
  · cases hL : s.last_clean_time with
    | none => simp [hL]
    | some t =>
      simp only [hL, Bool.not_true, Bool.false_eq_true, if_false, Option.some.injEq,
        reduceCtorEq, false_or, true_and]
      split_ifs with h

      · simp only [Bool.false_eq_true, false_iff, not_and]
        intro _ hc
        obtain ⟨t', ht', h30⟩ := hc
        subst ht'
        simp at h
        linarith
      · simp only [decide_eq_true_eq]
        constructor
        · intro hm
          refine ⟨hm, t, rfl, ?_⟩
          simpa using not_lt.mp (by simpa using h)
        · rintro ⟨hm, t', ht', _⟩
          exact hm

lemma should_auto_clean_disabled (now : ℚ) (s : CacheManager)
    (h : s.config.auto_clean_enabled = false) : should_auto_clean now s = false := by
  unfold should_auto_clean
  simp [h]

/-- On the non-Windows platform no step of a tick ever writes
`last_clean_time`: the cleanup stub does not touch it. -/
lemma update_other_last (i : TickInput) (s : CacheManager) :
    (update .other i s).1.last_clean_time = s.last_clean_time := by
  show (manual_step .other i (save_step i (checkbox_step i
      (guard_ui_step i (auto_clean_step .other i (sample_step .other i s)).1)))).last_clean_time
    = s.last_clean_time
  rw [manual_step_last_other, save_step_last, checkbox_step_last, guard_ui_step_last,
    auto_clean_step_last_other, sample_step_last]

/-- With auto-clean disabled and no tick re-enabling it, no tick of a run
fires the automatic cleanup. -/
lemma run_auto_fires_disabled (p : Platform) (l : List TickInput) :
    ∀ s : CacheManager, s.config.auto_clean_enabled = false →
      (∀ i ∈ l, i.auto_edit = false) → run_auto_fires p l s = false := by
  induction l with
  | nil => intro s _ _; rfl
  | cons i l ih =>
    intro s hdis hl
    show ((update p i s).2 || run_auto_fires p l (update p i s).1) = false
    have h2 : (update p i s).2 = false := by
      rw [update_snd,
        should_auto_clean_disabled _ _ (by rw [sample_step_config]; exact hdis)]
      rfl
    rw [h2, Bool.false_or]
    apply ih
    · rw [update_config]
      exact hl i (List.mem_cons_self i l)
    · exact fun j hj => hl j (List.mem_cons_of_mem i hj)

/-- The automatic cycle fires on the Scenario A tick from the freshly
started manager: enabled, metric 2100 at or above start 2048, no prior
clean. -/
lemma fires_at_default_2100 :
    (update .windows tick_sample_2100 (CacheManager.new none 8192)).2 = true := by
  rw [update_snd]
  have h : should_auto_clean tick_sample_2100.now
      (sample_step .windows tick_sample_2100 (CacheManager.new none 8192)) = true :=
    (should_auto_clean_eq_true _ _).mpr
      ⟨rfl,
       by norm_num [sample_step, get_ram_cache, CacheManager.new, Config.default,
         tick_sample_2100],
       Or.inl rfl⟩
  rw [h]
  rfl

/-- When every sampling command fails on a Windows tick, the sampled
metric is 0, so (for a positive start threshold) the automatic cycle does
not fire and the stored metric ends the tick at 0. -/
lemma update_windows_failure (i : TickInput) (s : CacheManager)
    (hfail : i.sample = .failure) (hmanual : i.manual_clicked = false)
    (hpos : 0 < s.config.start_threshold_mb) :
    (update .windows i s).2 = false ∧ (update .windows i s).1.ram_cache_mb = 0 := by
  have hsc : should_auto_clean i.now (sample_step .windows i s) = false := by
    cases hb : should_auto_clean i.now (sample_step .windows i s)
    · rfl
    · exfalso
      obtain ⟨_, hle, _⟩ := (should_auto_clean_eq_true _ _).mp hb
      rw [sample_step_ram, sample_step_config, hfail] at hle
      simp only [get_ram_cache] at hle
      linarith
  have hfired : (update .windows i s).2 = false := by
    rw [update_snd, hsc]
    rfl
  refine ⟨hfired, ?_⟩
  show (manual_step .windows i (save_step i (checkbox_step i
      (guard_ui_step i (auto_clean_step .windows i (sample_step .windows i s)).1)))).ram_cache_mb
    = 0
  rw [manual_step_not_clicked _ _ _ hmanual, save_step_ram, checkbox_step_ram,
    guard_ui_step_ram,
    auto_clean_step_fst_of_false _ _ _ (by rw [hsc]; rfl),
    sample_step_ram, hfail]
  rfl

/-! Facts about the threshold guard. -/

lemma guard_step_fst (t se te : ℚ) :
    (guard_step t se te).1 = if se ≤ t then t + 128 else se := rfl

lemma guard_step_snd (t se te : ℚ) :
    (guard_step t se te).2 =
      if (guard_step t se te).1 ≤ te then (guard_step t se te).1 - 128 else te := rfl

lemma guard_step_snd_lt_fst (t se te : ℚ) :
    (guard_step t se te).2 < (guard_step t se te).1 := by
  rw [guard_step_snd]
  split_ifs with h
  · linarith
  · exact not_le.mp h

lemma threshold_guard_fixed (pr : ℚ × ℚ) (h : pr.2 < pr.1) : threshold_guard pr = pr := by
  have hf : (threshold_guard pr).1 = pr.1 := by
    unfold threshold_guard
    rw [guard_step_fst, if_neg (not_le.mpr h)]
  have hs : (threshold_guard pr).2 = pr.2 := by
    unfold threshold_guard
    rw [guard_step_snd]
    unfold threshold_guard at hf
    rw [hf, if_neg (not_le.mpr h)]
  calc threshold_guard pr = ((threshold_guard pr).1, (threshold_guard pr).2) := rfl
    _ = (pr.1, pr.2) := by rw [hf, hs]
    _ = pr := rfl

lemma threshold_guard_valid (pr : ℚ × ℚ) :
    (threshold_guard pr).2 < (threshold_guard pr).1 :=
  guard_step_snd_lt_fst ..

/-! The claims. -/

/-- Claim C3 counterexample: section 4.2 says that setting
`start_threshold` to a value below `stop_threshold` pulls `stop_threshold`
down one step below the new start (so setting start to 500 against stop
1024 would give the pair (500, 372)), and that setting `stop_threshold`
at or above `start_threshold` pushes `start_threshold` up one step above
the new stop (so editing stop to 2048 against start 2048 would give
(2176, 2048)). The code adjusts the edited side itself instead: the first
edit yields (1152, 1024) and the second yields (2048, 1920). -/
theorem C3_counterexample :
    guard_step 1024 500 1024 = (1152, 1024) ∧
    guard_step 1024 500 1024 ≠ (500, 372) ∧
    guard_step 1024 2048 2048 = (2048, 1920) ∧
    guard_step 1024 2048 2048 ≠ (2176, 2048) := by
  norm_num [guard_step]

/-- Claim C3, amended: the guard repairs the conflicting edit on the side
that was edited, not the other side: a start value edited to at most the
stop threshold is pushed up to one fixed step (128) above the stop
threshold, and a stop value edited to at least the (possibly just pushed)
start threshold is pulled down to one fixed step below it; non-conflicting
edits pass through unchanged. -/
theorem C3_amended_guard (t se te : ℚ) :
    (se ≤ t → (guard_step t se te).1 = t + 128) ∧
    (t < se → (guard_step t se te).1 = se) ∧
    ((guard_step t se te).1 ≤ te →
      (guard_step t se te).2 = (guard_step t se te).1 - 128) ∧
    (te < (guard_step t se te).1 → (guard_step t se te).2 = te) := by
  refine ⟨fun h => ?_, fun h => ?_, fun h => ?_, fun h => ?_⟩
  · rw [guard_step_fst, if_pos h]
  · rw [guard_step_fst, if_neg (not_le.mpr h)]
  · rw [guard_step_snd, if_pos h]
  · rw [guard_step_snd, if_neg (not_le.mpr h)]

/-- Witness for C3_amended_guard at the two concrete conflicting edits of
the counterexample. -/
theorem C3_amended_guard_witness :
    (guard_step 1024 500 1024).1 = 1024 + 128 ∧
    (guard_step 1024 2048 2048).1 = 2048 ∧
    (guard_step 1024 2048 2048).2 = (guard_step 1024 2048 2048).1 - 128 ∧
    (guard_step 1024 500 1024).2 = 1024 :=
  ⟨(C3_amended_guard 1024 500 1024).1 (by norm_num),
   (C3_amended_guard 1024 2048 2048).2.1 (by norm_num),
   (C3_amended_guard 1024 2048 2048).2.2.1 (by norm_num [guard_step]),
   (C3_amended_guard 1024 500 1024).2.2.2 (by norm_num [guard_step])⟩

/-- Claim C4: after any tick (hence after any sequence of user edits to
the two thresholds), the persisted configuration satisfies
`start_threshold > stop_threshold` strictly, for every platform, every
input and every starting state. -/
theorem C4_threshold_invariant (p : Platform) (i : TickInput) (s : CacheManager) :
    (update p i s).1.config.stop_threshold_mb
      < (update p i s).1.config.start_threshold_mb := by
  rw [update_config]
  exact guard_step_snd_lt_fst ..

/-- Claim C7: on a tick where the user edits `start_threshold` to 500
while `stop_threshold` is 1024 (and does not move the stop slider), the
guard forces `start_threshold` to 1024 plus one fixed step (128) and
leaves `stop_threshold` at 1024. -/
theorem C7_scenario_b (p : Platform) (i : TickInput) (s : CacheManager)
    (hstop : s.config.stop_threshold_mb = 1024)
    (hse : i.start_edit = 500) (hte : i.stop_edit = 1024) :
    (update p i s).1.config.start_threshold_mb = 1024 + 128 ∧
    (update p i s).1.config.stop_threshold_mb = 1024 := by
  rw [update_config]
  show (guard_step s.config.stop_threshold_mb i.start_edit i.stop_edit).1 = 1024 + 128 ∧
    (guard_step s.config.stop_threshold_mb i.start_edit i.stop_edit).2 = 1024
  rw [hstop, hse, hte]
  norm_num [guard_step]

/-- Witness for C7_scenario_b at the freshly started manager (default
config, stop threshold 1024) and a concrete tick input. -/
theorem C7_scenario_b_witness :
    (update .windows
        { now := 0, sample := .failure, auto_resample := .failure,
          start_edit := 500, stop_edit := 1024, auto_edit := true,
          save_clicked := false, save_result := none,
          manual_clicked := false, manual_resample := .failure }
        (CacheManager.new none 8192)).1.config.start_threshold_mb = 1024 + 128 ∧
    (update .windows
        { now := 0, sample := .failure, auto_resample := .failure,
          start_edit := 500, stop_edit := 1024, auto_edit := true,
          save_clicked := false, save_result := none,
          manual_clicked := false, manual_resample := .failure }
        (CacheManager.new none 8192)).1.config.stop_threshold_mb = 1024 :=
  C7_scenario_b .windows _ _ rfl rfl rfl

/-- Claim C8: the configuration guard is idempotent — applying it twice to
a pair gives the same result as applying it once, and an already-valid
pair (start strictly above stop) is left unchanged. -/
theorem C8_guard_idempotent (pr : ℚ × ℚ) :
    threshold_guard (threshold_guard pr) = threshold_guard pr ∧
    (pr.2 < pr.1 → threshold_guard pr = pr) :=
  ⟨threshold_guard_fixed _ (threshold_guard_valid pr),
   fun h => threshold_guard_fixed pr h⟩

/-- Witness for C8_guard_idempotent at the default threshold pair. -/
theorem C8_guard_idempotent_witness :
    threshold_guard (threshold_guard (2048, 1024)) = threshold_guard (2048, 1024) ∧
    threshold_guard (2048, 1024) = (2048, 1024) :=
  ⟨(C8_guard_idempotent (2048, 1024)).1,
   (C8_guard_idempotent (2048, 1024)).2 (by norm_num)⟩

/-- Claim C1: from any state with the cleaning flag down (every state
observable between ticks), a tick fires the automatic cleanup exactly
when auto-clean is enabled, the freshly sampled metric is at or above the
start threshold (inclusive), and either no completed cleanup is recorded
or at least the 30-second cooldown has elapsed since the recorded one;
moreover, starting from a state with auto-clean disabled, no run of ticks
that never re-enables it ever fires the automatic cleanup, whatever the
metric values. -/
theorem C1_auto_trigger (p : Platform) (s : CacheManager) (h : s.is_cleaning = false) :
    (∀ i : TickInput,
      ((update p i s).2 = true ↔
        (s.config.auto_clean_enabled = true ∧
         s.config.start_threshold_mb ≤ get_ram_cache p s.total_ram_mb i.sample ∧
         (s.last_clean_time = none ∨
          ∃ t, s.last_clean_time = some t ∧ 30 ≤ i.now - t)))) ∧
    (s.config.auto_clean_enabled = false →
      ∀ l : List TickInput, (∀ i ∈ l, i.auto_edit = false) →
        run_auto_fires p l s = false) := by
  constructor
  · intro i
    rw [update_snd, h]
    simp only [Bool.not_false, Bool.and_true]
    rw [should_auto_clean_eq_true, sample_step_config, sample_step_last, sample_step_ram]
  · exact fun hdis l hl => run_auto_fires_disabled p l s hdis hl

/-- Witness for C1_auto_trigger: from the freshly started manager the
Scenario A tick fires; from the same manager started with auto-clean
disabled, a one-tick run that keeps the checkbox off never fires. -/
theorem C1_auto_trigger_witness :
    (update .windows tick_sample_2100 (CacheManager.new none 8192)).2 = true ∧
    run_auto_fires .windows [tick_disabled]
      (CacheManager.new (some config_disabled) 8192) = false :=
  ⟨((C1_auto_trigger .windows (CacheManager.new none 8192) rfl).1 tick_sample_2100).mpr
      ⟨rfl,
       by norm_num [get_ram_cache, CacheManager.new, Config.default, tick_sample_2100],
       Or.inl rfl⟩,
   (C1_auto_trigger .windows (CacheManager.new (some config_disabled) 8192) rfl).2 rfl
      [tick_disabled]
      (by
        intro j hj
        rw [List.mem_singleton] at hj
        subst hj
        rfl)⟩

/-- Claim C2 counterexample: on the Scenario A tick (start 2048, stop
1024, sampled metric 2100) the automatic cycle does start, but no
executor invocation carries the attempted target 1076 = 2100 - 1024 the
claim requires: the three command invocations of the cleanup routine all
carry no numeric target at all. -/
theorem C2_counterexample :
    (update .windows tick_sample_2100 (CacheManager.new none 8192)).2 = true ∧
    (clean_ram_cache_exec_calls
        (sample_step .windows tick_sample_2100 (CacheManager.new none 8192))).map Prod.snd
      = [none, none, none] ∧
    some (1076 : ℚ) ∉ (clean_ram_cache_exec_calls
        (sample_step .windows tick_sample_2100 (CacheManager.new none 8192))).map Prod.snd := by
  refine ⟨fires_at_default_2100, rfl, ?_⟩
  simp [clean_ram_cache_exec_calls]

/-- Claim C2, amended: the cleanup invocation passes no reclaim target to
the executor: its three external command invocations carry constant
argument lists with no numeric amount, and the entire effect of
`clean_ram_cache` is independent of `stop_threshold_mb` (the routine
binds the threshold to a local but never uses it), so no
`attempted_target = current_metric - stop_threshold` is computed or
transmitted. -/
theorem C2_no_target_passed (now : ℚ) (rs : SampleResult) (s : CacheManager) (t : ℚ) :
    (clean_ram_cache_exec_calls s).map Prod.snd = [none, none, none] ∧
    clean_ram_cache .windows now rs
        { s with config := { s.config with stop_threshold_mb := t } }
      = { clean_ram_cache .windows now rs s with
          config := { s.config with stop_threshold_mb := t } } := by
  obtain ⟨⟨a, b, e⟩, lt, ram, tot, ic, msg⟩ := s
  exact ⟨rfl, rfl⟩

/-- Claim C5, amended: when every sampling command fails on a tick, the
controller stores 0 as the metric (not the last known value), which for a
positive start threshold cannot fire the automatic cycle; the tick is a
total function of its inputs, so the transient read failure never crashes
the controller. -/
theorem C5_sampler_failure (i : TickInput) (s : CacheManager)
    (hfail : i.sample = .failure) (hmanual : i.manual_clicked = false)
    (hpos : 0 < s.config.start_threshold_mb) :
    (update .windows i s).2 = false ∧
    (update .windows i s).1.ram_cache_mb = 0 :=
  update_windows_failure i s hfail hmanual hpos

/-- Witness for C5_sampler_failure at the freshly started manager and the
all-failure tick. -/
theorem C5_sampler_failure_witness :
    (update .windows tick_failure (CacheManager.new none 8192)).2 = false ∧
    (update .windows tick_failure (CacheManager.new none 8192)).1.ram_cache_mb = 0 :=
  C5_sampler_failure tick_failure (CacheManager.new none 8192) rfl rfl
    (by norm_num [CacheManager.new, Config.default])

/-- Claim C5 counterexample: with a last known reading of 3000 MB (above
the start threshold) and a failing sampler, the controller does not treat
the failure as "metric unchanged": the stored metric after the tick is 0,
not 3000. -/
theorem C5_counterexample :
    state_metric_3000.ram_cache_mb = 3000 ∧
    (update .windows tick_failure state_metric_3000).1.ram_cache_mb = 0 ∧
    (update .windows tick_failure state_metric_3000).1.ram_cache_mb ≠ 3000 := by
  have h := (update_windows_failure tick_failure state_metric_3000 rfl rfl
    (by norm_num [state_metric_3000, CacheManager.new, Config.default])).2
  exact ⟨rfl, h, by rw [h]; norm_num⟩

/-- Claim C6, amended: the Windows cleanup body stores its completion
instant into `last_clean_time` unconditionally — also when the observed
reclaimed amount is zero or negative (the degraded outcome) — so after
any Windows invocation the 30-second cooldown blocks the automatic
trigger; the non-Windows cleanup stub, however, never writes
`last_clean_time`, so on that platform a (perpetually failing) cleanup is
not subject to the cooldown. -/
theorem C6_cooldown_after_clean :
    (∀ (now : ℚ) (rs : SampleResult) (s : CacheManager),
       (clean_ram_cache .windows now rs s).last_clean_time = some now) ∧
    (∀ (now : ℚ) (rs : SampleResult) (s : CacheManager),
       (clean_ram_cache .other now rs s).last_clean_time = s.last_clean_time) ∧
    (∀ (s : CacheManager) (rs : SampleResult) (now now2 : ℚ), now2 - now < 30 →
       should_auto_clean now2 (clean_ram_cache .windows now rs s) = false) := by
  refine ⟨clean_ram_cache_last_windows, clean_ram_cache_last_other,
    fun s rs now now2 h => ?_⟩
  unfold should_auto_clean
  rw [clean_ram_cache_last_windows]
  simp [h]

/-- Witness for C6_cooldown_after_clean: a concrete failed Windows
invocation (resample also fails, so the observed reclaimed amount is 0)
still stamps the cooldown, and 10 seconds later the automatic trigger is
blocked. -/
theorem C6_cooldown_after_clean_witness :
    (clean_ram_cache .windows 0 .failure (CacheManager.new none 8192)).last_clean_time
      = some 0 ∧
    (clean_ram_cache .other 0 .failure (CacheManager.new none 8192)).last_clean_time
      = (CacheManager.new none 8192).last_clean_time ∧
    should_auto_clean 10
      (clean_ram_cache .windows 0 .failure (CacheManager.new none 8192)) = false :=
  ⟨C6_cooldown_after_clean.1 0 .failure (CacheManager.new none 8192),
   C6_cooldown_after_clean.2.1 0 .failure (CacheManager.new none 8192),
   C6_cooldown_after_clean.2.2 (CacheManager.new none 8192) .failure 0 10 (by norm_num)⟩

/-- Claim C6 counterexample: a completed non-Windows cleanup invocation
leaves `last_clean_time` absent, and consequently a manager whose start
threshold is 0 (the non-Windows sampler always reads 0) fires the
automatic cleanup on two consecutive ticks one second apart — the
perpetually unavailable executor is retried on every tick, with no
cooldown. -/
theorem C6_counterexample :
    (clean_ram_cache .other 5 .failure (CacheManager.new none 8192)).last_clean_time
      = none ∧
    (update .other (tick_low 0) (CacheManager.new (some config_low) 8192)).2 = true ∧
    (update .other (tick_low 1)
      ((update .other (tick_low 0) (CacheManager.new (some config_low) 8192)).1)).2
      = true := by
  refine ⟨rfl, ?_, ?_⟩
  · rw [update_snd]
    have h : should_auto_clean (tick_low 0).now
        (sample_step .other (tick_low 0) (CacheManager.new (some config_low) 8192))
        = true :=
      (should_auto_clean_eq_true _ _).mpr ⟨rfl, le_refl 0, Or.inl rfl⟩
    rw [h]
    rfl
  · rw [update_snd]
    set s1 := (update .other (tick_low 0) (CacheManager.new (some config_low) 8192)).1
      with hs1
    have hcfg : s1.config =
        { start_threshold_mb := 0, stop_threshold_mb := -128,
          auto_clean_enabled := true } := by
      rw [hs1, update_config]
      norm_num [CacheManager.new, config_low, tick_low, guard_step]
    have hlast : s1.last_clean_time = none := by
      rw [hs1, update_other_last]
      rfl
    have hic : s1.is_cleaning = false := by
      rw [hs1]
      exact update_is_cleaning _ _ _ rfl
    have h : should_auto_clean (tick_low 1).now (sample_step .other (tick_low 1) s1)
        = true := by
      refine (should_auto_clean_eq_true _ _).mpr ⟨?_, ?_, Or.inl ?_⟩
      · rw [sample_step_config, hcfg]
      · rw [sample_step_config, sample_step_ram, hcfg]
        exact le_refl 0
      · rw [sample_step_last, hlast]
    rw [h, hic]
    rfl

/-- Claim C9, amended: a manual trigger invokes the cleanup routine
unconditionally — no hypothesis on thresholds, the enabled flag or the
cooldown is needed. On Windows every manual trigger resets
`last_clean_time` to the trigger instant and re-samples the metric after
the cleanup attempt; the non-Windows stub resets nothing (its
`last_clean_time` keeps its pre-tick value). -/
theorem C9_manual_trigger (i : TickInput) (s : CacheManager)
    (h : i.manual_clicked = true) :
    (update .windows i s).1.last_clean_time = some i.now ∧
    (update .windows i s).1.ram_cache_mb
      = get_ram_cache .windows s.total_ram_mb i.manual_resample ∧
    (update .other i s).1.last_clean_time = s.last_clean_time := by
  have e : (update .windows i s).1
      = clean_ram_cache .windows i.now i.manual_resample
          (save_step i (checkbox_step i (guard_ui_step i
            (auto_clean_step .windows i (sample_step .windows i s)).1))) := by
    show manual_step .windows i _ = _
    exact manual_step_clicked _ _ _ h
  refine ⟨?_, ?_, update_other_last i s⟩
  · rw [e, clean_ram_cache_last_windows]
  · rw [e, clean_ram_cache_ram_windows, save_step_total, checkbox_step_total,
      guard_ui_step_total, auto_clean_step_total, sample_step_total]

/-- Witness for C9_manual_trigger at the freshly started manager and the
manual-click tick. -/
theorem C9_manual_trigger_witness :
    (update .windows tick_manual (CacheManager.new none 8192)).1.last_clean_time
      = some tick_manual.now ∧
    (update .windows tick_manual (CacheManager.new none 8192)).1.ram_cache_mb
      = get_ram_cache .windows (CacheManager.new none 8192).total_ram_mb
          tick_manual.manual_resample ∧
    (update .other tick_manual (CacheManager.new none 8192)).1.last_clean_time
      = (CacheManager.new none 8192).last_clean_time :=
  C9_manual_trigger tick_manual (CacheManager.new none 8192) rfl

/-- Claim C9 counterexample: on the non-Windows platform the manual
triggered cleanup invocation completes without resetting
`last_action_at`: after a tick with the manual button clicked,
`last_clean_time` is still absent rather than the trigger instant. -/
theorem C9_counterexample :
    (update .other tick_manual (CacheManager.new none 8192)).1.last_clean_time = none ∧
    (update .other tick_manual (CacheManager.new none 8192)).1.last_clean_time
      ≠ some tick_manual.now := by
  have h := update_other_last tick_manual (CacheManager.new none 8192)
  constructor
  · simpa using h
  · rw [h]
    simp [CacheManager.new]

/-- Claim C10: every reachable state (every state observable between
ticks) has `is_cleaning = false`; every tick from a reachable state also
ends with `is_cleaning = false` (the flag is raised and lowered inside
the one synchronous cleanup call); and the re-entrancy conjunct
`!is_cleaning` of the automatic path never blocks: from a reachable
state, whether the automatic cleanup fires is decided by
`should_auto_clean` alone. -/
theorem C10_cleaning_flag (s : CacheManager) (h : Reachable s) :
    s.is_cleaning = false ∧
    (∀ (p : Platform) (i : TickInput), (update p i s).1.is_cleaning = false) ∧
    (∀ (p : Platform) (i : TickInput),
      (update p i s).2 = should_auto_clean i.now (sample_step p i s)) := by
  have h0 := reachable_not_cleaning s h
  refine ⟨h0, fun p i => update_is_cleaning p i s h0, fun p i => ?_⟩
  rw [update_snd, h0]
  simp

/-- Witness for C10_cleaning_flag at the freshly started manager and the
Scenario A tick. -/
theorem C10_cleaning_flag_witness :
    (CacheManager.new none 8192).is_cleaning = false ∧
    (update .windows tick_sample_2100 (CacheManager.new none 8192)).1.is_cleaning
      = false ∧
    (update .windows tick_sample_2100 (CacheManager.new none 8192)).2
      = should_auto_clean tick_sample_2100.now
          (sample_step .windows tick_sample_2100 (CacheManager.new none 8192)) := by
  obtain ⟨h1, h2, h3⟩ :=
    C10_cleaning_flag (CacheManager.new none 8192) (Reachable.start none 8192)
  exact ⟨h1, h2 .windows tick_sample_2100, h3 .windows tick_sample_2100⟩

end MemoryCacheManager
